import Mathlib

/-! Shallow embedding of the LCOE/LCOS computation engine of `packages/lcoe`
(`models.py`, `core.py`, `sensitivity.py`).  Python floats are modelled by `ℚ`
and Python ints by `ℤ`; a Python expression that can raise (division by zero,
zero to a negative power, list index out of range) is modelled in the `Option`
monad, `none` standing for a raised exception.
-/

/-- Python float division `a / b`: raises `ZeroDivisionError` when `b = 0`. -/
def pydiv (a b : ℚ) : Option ℚ :=
  if b = 0 then none else some (a / b)

/-- Python `x ** n` for an int exponent: for `n < 0` it is `1 / x^(-n)` and
raises `ZeroDivisionError` when `x = 0`. -/
def pypow (x : ℚ) (n : ℤ) : Option ℚ :=
  if 0 ≤ n then some (x ^ n.toNat)
  else if x = 0 then none
  else some ((x ^ (-n).toNat)⁻¹)

/-- Python `int(q)` on a float: truncation toward zero. -/
def pyint (q : ℚ) : ℤ :=
  if q < 0 then -⌊-q⌋ else ⌊q⌋

/-- models.py: `FinancingParameters` dataclass (defaults as in the source). -/
structure FinancingParameters where
  discount_rate : ℚ := 0.07
  inflation_rate : ℚ := 0.025
  tax_rate : ℚ := 0.21
  debt_fraction : ℚ := 0.6
  debt_interest_rate : ℚ := 0.05
  federal_itc : ℚ := 0.30
  state_rebate : ℚ := 0.0
  depreciation_schedule : List ℚ := [0.2, 0.32, 0.192, 0.1152, 0.1152, 0.0576]
deriving DecidableEq

/-- models.py: `FinancingParameters.effective_discount_rate`. -/
def FinancingParameters.effective_discount_rate (f : FinancingParameters) : ℚ :=
  f.discount_rate * (1 - f.tax_rate * f.debt_fraction)

/-- models.py: `DegradationModel` dataclass. -/
structure DegradationModel where
  annual_degradation_rate : ℚ := 0.005
  degradation_type : String := "linear"
  step_years : List ℤ := []
  step_rates : List ℚ := []
deriving DecidableEq

/-- The loop of the `"step"` branch of `performance_factor`:
`for i, step_year in enumerate(step_years): if year >= step_year:
factor *= (1 - step_rates[i])`; `step_rates[i]` raises `IndexError`
(modelled as `none`) when `i` is out of range. -/
def stepLoop (year : ℤ) (rates : List ℚ) : List ℤ → ℕ → ℚ → Option ℚ
  | [], _, factor => some factor
  | sy :: rest, i, factor =>
    if sy ≤ year then
      match rates.get? i with
      | none => none
      | some r => stepLoop year rates rest (i + 1) (factor * (1 - r))
    else
      stepLoop year rates rest (i + 1) factor

/-- models.py: `DegradationModel.performance_factor(year)`. -/
def DegradationModel.performance_factor (m : DegradationModel) (year : ℤ) : Option ℚ :=
  if m.degradation_type = "linear" then
    some (max 0 (1 - (year : ℚ) * m.annual_degradation_rate))
  else if m.degradation_type = "exponential" then
    pypow (1 - m.annual_degradation_rate) year
  else if m.degradation_type = "step" then
    stepLoop year m.step_rates m.step_years 0 1
  else
    some 1

/-- models.py: `LoadProfile` dataclass, scalar fields only (its hourly-profile
method is numpy glue unused by the core math embedded here). -/
structure LoadProfile where
  annual_energy_kwh : ℚ := 10000
  peak_demand_kw : ℚ := 5.0
  load_factor : ℚ := 0.3
  seasonal_variation : ℚ := 0.2
deriving DecidableEq

/-- models.py: `LCOEInputs` dataclass (technology/use-case tags are
informational strings, unused by the engine). -/
structure LCOEInputs where
  capex_per_kw : ℚ := 1500.0
  system_size_kw : ℚ := 100.0
  fixed_om_per_kw_year : ℚ := 15.0
  variable_om_per_mwh : ℚ := 0.0
  fuel_cost_per_mwh : ℚ := 0.0
  capacity_factor : ℚ := 0.25
  system_lifetime_years : ℤ := 25
  degradation : DegradationModel := {}
  financing : FinancingParameters := {}
  technology_type : String := "pv"
  use_case : String := "residential"
deriving DecidableEq

/-- models.py: `LCOSInputs` dataclass. -/
structure LCOSInputs where
  capex_per_kwh : ℚ := 400.0
  system_size_kwh : ℚ := 100.0
  power_rating_kw : ℚ := 50.0
  fixed_om_per_kwh_year : ℚ := 5.0
  variable_om_per_cycle : ℚ := 0.01
  round_trip_efficiency : ℚ := 0.90
  cycles_per_year : ℚ := 365.0
  cycle_life : ℤ := 4000
  calendar_life_years : ℤ := 15
  depth_of_discharge : ℚ := 0.90
  capacity_fade_per_year : ℚ := 0.02
  efficiency_fade_per_cycle : ℚ := 0.00001
  financing : FinancingParameters := {}
  load_profile : LoadProfile := {}
  technology_type : String := "battery"
  use_case : String := "residential"
deriving DecidableEq

/-- models.py: `LCOEResult` dataclass. -/
structure LCOEResult where
  lcoe_usd_per_mwh : ℚ
  lcoe_usd_per_kwh : ℚ
  capex_component : ℚ
  opex_component : ℚ
  fuel_component : ℚ
  financing_component : ℚ
  total_capex : ℚ
  total_opex_npv : ℚ
  total_energy_mwh : ℚ
  capacity_factor_actual : ℚ
  p10_lcoe : Option ℚ := none
  p50_lcoe : Option ℚ := none
  p90_lcoe : Option ℚ := none
deriving DecidableEq

/-- models.py: `LCOSResult` dataclass. -/
structure LCOSResult where
  lcos_usd_per_mwh : ℚ
  lcos_usd_per_kwh : ℚ
  capex_component : ℚ
  opex_component : ℚ
  replacement_component : ℚ
  financing_component : ℚ
  total_throughput_mwh : ℚ
  effective_cycles : ℚ
  end_of_life_capacity : ℚ
  average_efficiency : ℚ
  total_capex : ℚ
  total_opex_npv : ℚ
  replacement_cost_npv : ℚ
  p10_lcos : Option ℚ := none
  p50_lcos : Option ℚ := none
  p90_lcos : Option ℚ := none
deriving DecidableEq

/-- An all-zero `LCOEResult`, used only as the irrelevant `Option.getD`
default in statements whose hypotheses force the option to be `some`. -/
def LCOEResult.zero : LCOEResult :=
  { lcoe_usd_per_mwh := 0, lcoe_usd_per_kwh := 0, capex_component := 0,
    opex_component := 0, fuel_component := 0, financing_component := 0,
    total_capex := 0, total_opex_npv := 0, total_energy_mwh := 0,
    capacity_factor_actual := 0 }

/-- An all-zero `LCOSResult`, used only as the irrelevant `Option.getD`
default in statements whose hypotheses force the option to be `some`. -/
def LCOSResult.zero : LCOSResult :=
  { lcos_usd_per_mwh := 0, lcos_usd_per_kwh := 0, capex_component := 0,
    opex_component := 0, replacement_component := 0, financing_component := 0,
    total_throughput_mwh := 0, effective_cycles := 0, end_of_life_capacity := 0,
    average_efficiency := 0, total_capex := 0, total_opex_npv := 0,
    replacement_cost_npv := 0 }

namespace LCOECalculator

/-- core.py: `LCOECalculator._calculate_total_capex`. -/
def calculate_total_capex (inputs : LCOEInputs) : ℚ :=
  let base_capex := inputs.capex_per_kw * inputs.system_size_kw
  let itc_benefit := base_capex * inputs.financing.federal_itc
  let state_rebate := inputs.financing.state_rebate * inputs.system_size_kw
  let net_capex := base_capex - itc_benefit - state_rebate
  max 0 net_capex

/-- core.py: `LCOECalculator._calculate_annual_energy`. -/
def calculate_annual_energy (inputs : LCOEInputs) : ℚ :=
  inputs.system_size_kw * inputs.capacity_factor * 8760 / 1000

/-- core.py: `LCOECalculator._calculate_lifetime_energy`. -/
def calculate_lifetime_energy (inputs : LCOEInputs) (annual_energy_mwh : ℚ) : Option ℚ :=
  let discount_rate := inputs.financing.effective_discount_rate
  (List.range inputs.system_lifetime_years.toNat).foldlM
    (fun total_energy year => do
      let pf ← inputs.degradation.performance_factor (year : ℤ)
      let year_energy := annual_energy_mwh * pf
      let discounted_energy ← pydiv year_energy ((1 + discount_rate) ^ year)
      pure (total_energy + discounted_energy)) 0

/-- core.py: `LCOECalculator._calculate_npv_series`. -/
def calculate_npv_series (annual_amount : ℚ) (years : ℤ)
    (discount_rate inflation_rate : ℚ) : Option ℚ :=
  (List.range years.toNat).foldlM
    (fun npv year => do
      let inflated_amount := annual_amount * (1 + inflation_rate) ^ year
      let discounted_amount ← pydiv inflated_amount ((1 + discount_rate) ^ year)
      pure (npv + discounted_amount)) 0

/-- core.py: `LCOECalculator._calculate_opex_npv`. -/
def calculate_opex_npv (inputs : LCOEInputs) : Option ℚ :=
  let annual_fixed_om := inputs.fixed_om_per_kw_year * inputs.system_size_kw
  let annual_variable_om := inputs.variable_om_per_mwh * calculate_annual_energy inputs
  let annual_opex := annual_fixed_om + annual_variable_om
  calculate_npv_series annual_opex inputs.system_lifetime_years
    inputs.financing.effective_discount_rate inputs.financing.inflation_rate

/-- core.py: `LCOECalculator._calculate_fuel_npv`. -/
def calculate_fuel_npv (inputs : LCOEInputs) (annual_energy_mwh : ℚ) : Option ℚ :=
  if inputs.fuel_cost_per_mwh ≤ 0 then
    some 0
  else
    calculate_npv_series (inputs.fuel_cost_per_mwh * annual_energy_mwh)
      inputs.system_lifetime_years
      inputs.financing.effective_discount_rate inputs.financing.inflation_rate

/-- core.py: `LCOECalculator._calculate_financing_cost`. -/
def calculate_financing_cost (inputs : LCOEInputs) (capex : ℚ) : Option ℚ :=
  let debt_amount := capex * inputs.financing.debt_fraction
  let annual_interest := debt_amount * inputs.financing.debt_interest_rate
  calculate_npv_series annual_interest inputs.system_lifetime_years
    inputs.financing.effective_discount_rate 0

/-- core.py: `LCOECalculator.calculate`.  `none` models a raised exception
(the `except` clause of the source re-raises). -/
def calculate (inputs : LCOEInputs) : Option LCOEResult := do
  let total_capex := calculate_total_capex inputs
  let annual_energy_mwh := calculate_annual_energy inputs
  let lifetime_energy_mwh ← calculate_lifetime_energy inputs annual_energy_mwh
  let total_opex_npv ← calculate_opex_npv inputs
  let total_fuel_npv ← calculate_fuel_npv inputs annual_energy_mwh
  let financing_cost ← calculate_financing_cost inputs total_capex
  let total_costs := total_capex + total_opex_npv + total_fuel_npv + financing_cost
  let lcoe_usd_per_mwh := if 0 < lifetime_energy_mwh then total_costs / lifetime_energy_mwh else 0
  let lcoe_usd_per_kwh := lcoe_usd_per_mwh / 1000
  let capex_component := if 0 < lifetime_energy_mwh then total_capex / lifetime_energy_mwh else 0
  let opex_component := if 0 < lifetime_energy_mwh then total_opex_npv / lifetime_energy_mwh else 0
  let fuel_component := if 0 < lifetime_energy_mwh then total_fuel_npv / lifetime_energy_mwh else 0
  let financing_component := if 0 < lifetime_energy_mwh then financing_cost / lifetime_energy_mwh else 0
  let capacity_factor_actual ← pydiv annual_energy_mwh (inputs.system_size_kw * 8.76)
  pure { lcoe_usd_per_mwh, lcoe_usd_per_kwh, capex_component, opex_component,
         fuel_component, financing_component, total_capex, total_opex_npv,
         total_energy_mwh := lifetime_energy_mwh, capacity_factor_actual }

end LCOECalculator

namespace LCOSCalculator

/-- core.py: `LCOSCalculator._calculate_total_capex`. -/
def calculate_total_capex (inputs : LCOSInputs) : ℚ :=
  let base_capex := inputs.capex_per_kwh * inputs.system_size_kwh
  let itc_benefit := base_capex * inputs.financing.federal_itc
  let state_rebate := inputs.financing.state_rebate * inputs.system_size_kwh
  let net_capex := base_capex - itc_benefit - state_rebate
  max 0 net_capex

/-- core.py: `LCOSCalculator._calculate_lifetime_throughput`. -/
def calculate_lifetime_throughput (inputs : LCOSInputs) : Option ℚ := do
  let cycle_limited_years ← pydiv (inputs.cycle_life : ℚ) inputs.cycles_per_year
  let actual_lifetime := min cycle_limited_years (inputs.calendar_life_years : ℚ)
  let usable_capacity_kwh := inputs.system_size_kwh * inputs.depth_of_discharge
  let annual_throughput_base :=
    usable_capacity_kwh * inputs.cycles_per_year * inputs.round_trip_efficiency / 1000
  let discount_rate := inputs.financing.effective_discount_rate
  (List.range (pyint actual_lifetime).toNat).foldlM
    (fun (total_throughput : ℚ) (year : ℕ) => do
      let capacity_factor := max 0.5 (1 - (year : ℚ) * inputs.capacity_fade_per_year)
      let total_cycles := (year : ℚ) * inputs.cycles_per_year
      let efficiency_factor :=
        max 0.7 (inputs.round_trip_efficiency - total_cycles * inputs.efficiency_fade_per_cycle)
      let efficiency_term ← pydiv efficiency_factor inputs.round_trip_efficiency
      let year_throughput := annual_throughput_base * capacity_factor * efficiency_term
      let discounted_throughput ← pydiv year_throughput ((1 + discount_rate) ^ year)
      pure (total_throughput + discounted_throughput)) 0

/-- core.py: `LCOSCalculator._calculate_npv_series` (textually identical to the
LCOE one; the source duplicates it on both classes). -/
def calculate_npv_series (annual_amount : ℚ) (years : ℤ)
    (discount_rate inflation_rate : ℚ) : Option ℚ :=
  (List.range years.toNat).foldlM
    (fun npv year => do
      let inflated_amount := annual_amount * (1 + inflation_rate) ^ year
      let discounted_amount ← pydiv inflated_amount ((1 + discount_rate) ^ year)
      pure (npv + discounted_amount)) 0

/-- core.py: `LCOSCalculator._calculate_opex_npv`. -/
def calculate_opex_npv (inputs : LCOSInputs) : Option ℚ :=
  let annual_fixed_om := inputs.fixed_om_per_kwh_year * inputs.system_size_kwh
  let annual_variable_om := inputs.variable_om_per_cycle * inputs.cycles_per_year
  let annual_opex := annual_fixed_om + annual_variable_om
  calculate_npv_series annual_opex inputs.calendar_life_years
    inputs.financing.effective_discount_rate inputs.financing.inflation_rate

/-- core.py: `LCOSCalculator._calculate_replacement_cost`. -/
def calculate_replacement_cost (inputs : LCOSInputs) : Option ℚ := do
  let cycle_limited_years ← pydiv (inputs.cycle_life : ℚ) inputs.cycles_per_year
  if cycle_limited_years < (inputs.calendar_life_years : ℚ) then
    let replacement_year := pyint cycle_limited_years
    let replacement_cost := inputs.capex_per_kwh * inputs.system_size_kwh * 0.7
    let denom ← pypow (1 + inputs.financing.effective_discount_rate) replacement_year
    pydiv replacement_cost denom
  else
    pure 0

/-- core.py: `LCOSCalculator._calculate_financing_cost`. -/
def calculate_financing_cost (inputs : LCOSInputs) (capex : ℚ) : Option ℚ :=
  let debt_amount := capex * inputs.financing.debt_fraction
  let annual_interest := debt_amount * inputs.financing.debt_interest_rate
  calculate_npv_series annual_interest inputs.calendar_life_years
    inputs.financing.effective_discount_rate 0

/-- core.py: `LCOSCalculator._calculate_effective_cycles`. -/
def calculate_effective_cycles (inputs : LCOSInputs) : Option ℚ := do
  let cycle_limited_years ← pydiv (inputs.cycle_life : ℚ) inputs.cycles_per_year
  let actual_lifetime := min cycle_limited_years (inputs.calendar_life_years : ℚ)
  pure (actual_lifetime * inputs.cycles_per_year)

/-- core.py: `LCOSCalculator._calculate_end_of_life_capacity`. -/
def calculate_end_of_life_capacity (inputs : LCOSInputs) : Option ℚ := do
  let cycle_limited_years ← pydiv (inputs.cycle_life : ℚ) inputs.cycles_per_year
  let actual_lifetime := min cycle_limited_years (inputs.calendar_life_years : ℚ)
  pure (max 0.5 (1 - actual_lifetime * inputs.capacity_fade_per_year))

/-- core.py: `LCOSCalculator._calculate_average_efficiency`. -/
def calculate_average_efficiency (inputs : LCOSInputs) : Option ℚ := do
  let cycle_limited_years ← pydiv (inputs.cycle_life : ℚ) inputs.cycles_per_year
  let actual_lifetime := min cycle_limited_years (inputs.calendar_life_years : ℚ)
  let total_cycles := actual_lifetime * inputs.cycles_per_year
  let end_efficiency :=
    max 0.7 (inputs.round_trip_efficiency - total_cycles * inputs.efficiency_fade_per_cycle)
  pure ((inputs.round_trip_efficiency + end_efficiency) / 2)

/-- core.py: `LCOSCalculator.calculate`. -/
def calculate (inputs : LCOSInputs) : Option LCOSResult := do
  let total_capex := calculate_total_capex inputs
  let lifetime_throughput_mwh ← calculate_lifetime_throughput inputs
  let total_opex_npv ← calculate_opex_npv inputs
  let replacement_cost_npv ← calculate_replacement_cost inputs
  let financing_cost ← calculate_financing_cost inputs total_capex
  let total_costs := total_capex + total_opex_npv + replacement_cost_npv + financing_cost
  let lcos_usd_per_mwh :=
    if 0 < lifetime_throughput_mwh then total_costs / lifetime_throughput_mwh else 0
  let lcos_usd_per_kwh := lcos_usd_per_mwh / 1000
  let effective_cycles ← calculate_effective_cycles inputs
  let end_of_life_capacity ← calculate_end_of_life_capacity inputs
  let average_efficiency ← calculate_average_efficiency inputs
  let capex_component :=
    if 0 < lifetime_throughput_mwh then total_capex / lifetime_throughput_mwh else 0
  let opex_component :=
    if 0 < lifetime_throughput_mwh then total_opex_npv / lifetime_throughput_mwh else 0
  let replacement_component :=
    if 0 < lifetime_throughput_mwh then replacement_cost_npv / lifetime_throughput_mwh else 0
  let financing_component :=
    if 0 < lifetime_throughput_mwh then financing_cost / lifetime_throughput_mwh else 0
  pure { lcos_usd_per_mwh, lcos_usd_per_kwh, capex_component, opex_component,
         replacement_component, financing_component,
         total_throughput_mwh := lifetime_throughput_mwh, effective_cycles,
         end_of_life_capacity, average_efficiency, total_capex, total_opex_npv,
         replacement_cost_npv }

/-! The sensitivity analyzer stores `base_value * (1 ± variation)` — a Python
FLOAT — into the `cycle_life` slot, whose dataclass annotation `int` is not
enforced.  The calculator only ever uses `cycle_life` in float arithmetic
(`cycle_life / cycles_per_year`), so a float there never raises and the result
is determined by the rational value stored.  The `_clv` definitions below are
the calculator with the `cycle_life` slot holding an arbitrary rational; at
`clv = (cycle_life : ℚ)` they definitionally agree with the originals. -/

/-- core.py: `LCOSCalculator._calculate_lifetime_throughput` with the
`cycle_life` slot holding the float value `clv`. -/
def calculate_lifetime_throughput_clv (inputs : LCOSInputs) (clv : ℚ) : Option ℚ := do
  let cycle_limited_years ← pydiv clv inputs.cycles_per_year
  let actual_lifetime := min cycle_limited_years (inputs.calendar_life_years : ℚ)
  let usable_capacity_kwh := inputs.system_size_kwh * inputs.depth_of_discharge
  let annual_throughput_base :=
    usable_capacity_kwh * inputs.cycles_per_year * inputs.round_trip_efficiency / 1000
  let discount_rate := inputs.financing.effective_discount_rate
  (List.range (pyint actual_lifetime).toNat).foldlM
    (fun (total_throughput : ℚ) (year : ℕ) => do
      let capacity_factor := max 0.5 (1 - (year : ℚ) * inputs.capacity_fade_per_year)
      let total_cycles := (year : ℚ) * inputs.cycles_per_year
      let efficiency_factor :=
        max 0.7 (inputs.round_trip_efficiency - total_cycles * inputs.efficiency_fade_per_cycle)
      let efficiency_term ← pydiv efficiency_factor inputs.round_trip_efficiency
      let year_throughput := annual_throughput_base * capacity_factor * efficiency_term
      let discounted_throughput ← pydiv year_throughput ((1 + discount_rate) ^ year)
      pure (total_throughput + discounted_throughput)) 0

/-- core.py: `LCOSCalculator._calculate_replacement_cost` with the
`cycle_life` slot holding the float value `clv`. -/
def calculate_replacement_cost_clv (inputs : LCOSInputs) (clv : ℚ) : Option ℚ := do
  let cycle_limited_years ← pydiv clv inputs.cycles_per_year
  if cycle_limited_years < (inputs.calendar_life_years : ℚ) then
    let replacement_year := pyint cycle_limited_years
    let replacement_cost := inputs.capex_per_kwh * inputs.system_size_kwh * 0.7
    let denom ← pypow (1 + inputs.financing.effective_discount_rate) replacement_year
    pydiv replacement_cost denom
  else
    pure 0

/-- core.py: `LCOSCalculator._calculate_effective_cycles` with the
`cycle_life` slot holding the float value `clv`. -/
def calculate_effective_cycles_clv (inputs : LCOSInputs) (clv : ℚ) : Option ℚ := do
  let cycle_limited_years ← pydiv clv inputs.cycles_per_year
  let actual_lifetime := min cycle_limited_years (inputs.calendar_life_years : ℚ)
  pure (actual_lifetime * inputs.cycles_per_year)

/-- core.py: `LCOSCalculator._calculate_end_of_life_capacity` with the
`cycle_life` slot holding the float value `clv`. -/
def calculate_end_of_life_capacity_clv (inputs : LCOSInputs) (clv : ℚ) : Option ℚ := do
  let cycle_limited_years ← pydiv clv inputs.cycles_per_year
  let actual_lifetime := min cycle_limited_years (inputs.calendar_life_years : ℚ)
  pure (max 0.5 (1 - actual_lifetime * inputs.capacity_fade_per_year))

/-- core.py: `LCOSCalculator._calculate_average_efficiency` with the
`cycle_life` slot holding the float value `clv`. -/
def calculate_average_efficiency_clv (inputs : LCOSInputs) (clv : ℚ) : Option ℚ := do
  let cycle_limited_years ← pydiv clv inputs.cycles_per_year
  let actual_lifetime := min cycle_limited_years (inputs.calendar_life_years : ℚ)
  let total_cycles := actual_lifetime * inputs.cycles_per_year
  let end_efficiency :=
    max 0.7 (inputs.round_trip_efficiency - total_cycles * inputs.efficiency_fade_per_cycle)
  pure ((inputs.round_trip_efficiency + end_efficiency) / 2)

/-- core.py: `LCOSCalculator.calculate` with the `cycle_life` slot holding the
float value `clv` (opex, financing and capex do not read `cycle_life`). -/
def calculate_clv (inputs : LCOSInputs) (clv : ℚ) : Option LCOSResult := do
  let total_capex := calculate_total_capex inputs
  let lifetime_throughput_mwh ← calculate_lifetime_throughput_clv inputs clv
  let total_opex_npv ← calculate_opex_npv inputs
  let replacement_cost_npv ← calculate_replacement_cost_clv inputs clv
  let financing_cost ← calculate_financing_cost inputs total_capex
  let total_costs := total_capex + total_opex_npv + replacement_cost_npv + financing_cost
  let lcos_usd_per_mwh :=
    if 0 < lifetime_throughput_mwh then total_costs / lifetime_throughput_mwh else 0
  let lcos_usd_per_kwh := lcos_usd_per_mwh / 1000
  let effective_cycles ← calculate_effective_cycles_clv inputs clv
  let end_of_life_capacity ← calculate_end_of_life_capacity_clv inputs clv
  let average_efficiency ← calculate_average_efficiency_clv inputs clv
  let capex_component :=
    if 0 < lifetime_throughput_mwh then total_capex / lifetime_throughput_mwh else 0
  let opex_component :=
    if 0 < lifetime_throughput_mwh then total_opex_npv / lifetime_throughput_mwh else 0
  let replacement_component :=
    if 0 < lifetime_throughput_mwh then replacement_cost_npv / lifetime_throughput_mwh else 0
  let financing_component :=
    if 0 < lifetime_throughput_mwh then financing_cost / lifetime_throughput_mwh else 0
  pure { lcos_usd_per_mwh, lcos_usd_per_kwh, capex_component, opex_component,
         replacement_component, financing_component,
         total_throughput_mwh := lifetime_throughput_mwh, effective_cycles,
         end_of_life_capacity, average_efficiency, total_capex, total_opex_npv,
         replacement_cost_npv }

end LCOSCalculator

/-- sensitivity.py: the full default parameter list of
`analyze_lcoe_sensitivity` (line 65-68), as an enumerated set of field
selectors (the source addresses them by dotted `getattr`/`setattr` strings). -/
inductive LCOEParam where
  | capex_per_kw
  | capacity_factor
  | system_lifetime_years
  | fixed_om_per_kw_year
  | financing_discount_rate
deriving DecidableEq

/-- sensitivity.py: `SensitivityAnalyzer._get_nested_attribute` specialised to
`LCOEInputs` (Python arithmetic on the returned int promotes it to float). -/
def get_parameter (inputs : LCOEInputs) : LCOEParam → ℚ
  | .capex_per_kw => inputs.capex_per_kw
  | .capacity_factor => inputs.capacity_factor
  | .system_lifetime_years => (inputs.system_lifetime_years : ℚ)
  | .fixed_om_per_kw_year => inputs.fixed_om_per_kw_year
  | .financing_discount_rate => inputs.financing.discount_rate

/-- sensitivity.py: `calculate(self._copy_inputs_with_param(inputs, p, v))` as
one unit (the deep copy is value semantics here).  The stored value `v` is
always a Python FLOAT (`base_value * (1 ± variation)`); the dataclass does not
enforce the `int` annotation of `system_lifetime_years`, so for that parameter
the engine hits `range(<float>)`, which raises `TypeError` for EVERY float
(integral-valued or not) — hence `none` unconditionally. -/
def calculate_with_param (inputs : LCOEInputs) : LCOEParam → ℚ → Option LCOEResult
  | .capex_per_kw, v => LCOECalculator.calculate { inputs with capex_per_kw := v }
  | .capacity_factor, v => LCOECalculator.calculate { inputs with capacity_factor := v }
  | .system_lifetime_years, _ => none
  | .fixed_om_per_kw_year, v => LCOECalculator.calculate { inputs with fixed_om_per_kw_year := v }
  | .financing_discount_rate, v =>
      LCOECalculator.calculate
        { inputs with financing := { inputs.financing with discount_rate := v } }

/-- sensitivity.py: the dotted path string of each enumerated LCOE parameter. -/
def LCOEParam.path : LCOEParam → String
  | .capex_per_kw => "capex_per_kw"
  | .capacity_factor => "capacity_factor"
  | .system_lifetime_years => "system_lifetime_years"
  | .fixed_om_per_kw_year => "fixed_om_per_kw_year"
  | .financing_discount_rate => "financing.discount_rate"

/-- sensitivity.py: the full default parameter list of
`analyze_lcos_sensitivity` (line 124-127). -/
inductive LCOSParam where
  | capex_per_kwh
  | round_trip_efficiency
  | cycle_life
  | cycles_per_year
  | capacity_fade_per_year
  | financing_discount_rate
deriving DecidableEq

/-- sensitivity.py: `SensitivityAnalyzer._get_nested_attribute` specialised to
`LCOSInputs`. -/
def get_parameter_lcos (inputs : LCOSInputs) : LCOSParam → ℚ
  | .capex_per_kwh => inputs.capex_per_kwh
  | .round_trip_efficiency => inputs.round_trip_efficiency
  | .cycle_life => (inputs.cycle_life : ℚ)
  | .cycles_per_year => inputs.cycles_per_year
  | .capacity_fade_per_year => inputs.capacity_fade_per_year
  | .financing_discount_rate => inputs.financing.discount_rate

/-- sensitivity.py: `calculate(self._copy_inputs_with_param(inputs, p, v))` for
the LCOS analyzer.  Every default LCOS parameter is used by the engine in
float arithmetic only — including `cycle_life`, whose stored float feeds
`cycle_life / cycles_per_year` and never a `range()` — so no parameter raises
on account of its runtime type; `cycle_life` goes through `calculate_clv`. -/
def calculate_with_param_lcos (inputs : LCOSInputs) : LCOSParam → ℚ → Option LCOSResult
  | .capex_per_kwh, v => LCOSCalculator.calculate { inputs with capex_per_kwh := v }
  | .round_trip_efficiency, v =>
      LCOSCalculator.calculate { inputs with round_trip_efficiency := v }
  | .cycle_life, v => LCOSCalculator.calculate_clv inputs v
  | .cycles_per_year, v => LCOSCalculator.calculate { inputs with cycles_per_year := v }
  | .capacity_fade_per_year, v =>
      LCOSCalculator.calculate { inputs with capacity_fade_per_year := v }
  | .financing_discount_rate, v =>
      LCOSCalculator.calculate
        { inputs with financing := { inputs.financing with discount_rate := v } }

/-- sensitivity.py: the dotted path string of each enumerated LCOS parameter. -/
def LCOSParam.path : LCOSParam → String
  | .capex_per_kwh => "capex_per_kwh"
  | .round_trip_efficiency => "round_trip_efficiency"
  | .cycle_life => "cycle_life"
  | .cycles_per_year => "cycles_per_year"
  | .capacity_fade_per_year => "capacity_fade_per_year"
  | .financing_discount_rate => "financing.discount_rate"

/-- sensitivity.py: `SensitivityResult` dataclass. -/
structure SensitivityResult where
  parameter_name : String
  base_value : ℚ
  low_value : ℚ
  high_value : ℚ
  base_result : ℚ
  low_result : ℚ
  high_result : ℚ
  sensitivity : ℚ
  elasticity : ℚ
deriving DecidableEq

/-- An all-zero `SensitivityResult`, used only as the irrelevant `Option.getD`
default in statements whose hypotheses force the option to be `some`. -/
def SensitivityResult.zero : SensitivityResult :=
  { parameter_name := "", base_value := 0, low_value := 0, high_value := 0,
    base_result := 0, low_result := 0, high_result := 0, sensitivity := 0,
    elasticity := 0 }

/-- sensitivity.py: the body of one iteration of the parameter loop of
`SensitivityAnalyzer.analyze_lcoe_sensitivity` (lines 76-109).  The source
computes `base_result` once before the loop; `calculate` being pure, inlining
it here gives the same value.  `none` models an exception raised inside the
`try` block: the source catches it, logs a warning and appends no record. -/
def analyze_one_parameter (base_inputs : LCOEInputs) (param : LCOEParam)
    (variation_percent : ℚ) : Option SensitivityResult := do
  let base_result ← LCOECalculator.calculate base_inputs
  let base_lcoe := base_result.lcoe_usd_per_kwh
  let base_value := get_parameter base_inputs param
  let low_value := base_value * (1 - variation_percent)
  let high_value := base_value * (1 + variation_percent)
  let low_result ← calculate_with_param base_inputs param low_value
  let low_lcoe := low_result.lcoe_usd_per_kwh
  let high_result ← calculate_with_param base_inputs param high_value
  let high_lcoe := high_result.lcoe_usd_per_kwh
  let sensitivity ←
    if high_value ≠ low_value then pydiv (high_lcoe - low_lcoe) (high_value - low_value)
    else pure 0
  let elasticity ←
    if base_value ≠ 0 ∧ base_lcoe ≠ 0 then do
      let num ← pydiv (high_lcoe - low_lcoe) base_lcoe
      let den ← pydiv (high_value - low_value) base_value
      pydiv num den
    else pure 0
  pure { parameter_name := param.path, base_value, low_value, high_value,
         base_result := base_lcoe, low_result := low_lcoe,
         high_result := high_lcoe, sensitivity, elasticity }

/-- sensitivity.py: the body of one iteration of the parameter loop of
`SensitivityAnalyzer.analyze_lcos_sensitivity` (lines 135-162), structurally
identical to the LCOE one but over `LCOSInputs` and `lcos_usd_per_kwh`. -/
def analyze_one_parameter_lcos (base_inputs : LCOSInputs) (param : LCOSParam)
    (variation_percent : ℚ) : Option SensitivityResult := do
  let base_result ← LCOSCalculator.calculate base_inputs
  let base_lcos := base_result.lcos_usd_per_kwh
  let base_value := get_parameter_lcos base_inputs param
  let low_value := base_value * (1 - variation_percent)
  let high_value := base_value * (1 + variation_percent)
  let low_result ← calculate_with_param_lcos base_inputs param low_value
  let low_lcos := low_result.lcos_usd_per_kwh
  let high_result ← calculate_with_param_lcos base_inputs param high_value
  let high_lcos := high_result.lcos_usd_per_kwh
  let sensitivity ←
    if high_value ≠ low_value then pydiv (high_lcos - low_lcos) (high_value - low_value)
    else pure 0
  let elasticity ←
    if base_value ≠ 0 ∧ base_lcos ≠ 0 then do
      let num ← pydiv (high_lcos - low_lcos) base_lcos
      let den ← pydiv (high_value - low_value) base_value
      pydiv num den
    else pure 0
  pure { parameter_name := param.path, base_value, low_value, high_value,
         base_result := base_lcos, low_result := low_lcos,
         high_result := high_lcos, sensitivity, elasticity }

/-! Concrete inputs used by witnesses and counterexamples. -/

/-- Financing with every rate zero: discounting and incentives are inert. -/
def finZero : FinancingParameters :=
  { discount_rate := 0, inflation_rate := 0, tax_rate := 0, debt_fraction := 0,
    debt_interest_rate := 0, federal_itc := 0, state_rebate := 0,
    depreciation_schedule := [] }

/-- A small concrete LCOE input: 1 kW at 1000 USD/kW, one year of life,
no O&M, no fuel, no degradation, zero-rate financing. -/
def exInputsA : LCOEInputs :=
  { capex_per_kw := 1000, system_size_kw := 1, fixed_om_per_kw_year := 0,
    variable_om_per_mwh := 0, fuel_cost_per_mwh := 0, capacity_factor := 0.25,
    system_lifetime_years := 1,
    degradation := { annual_degradation_rate := 0 }, financing := finZero }

/-- A concrete LCOS input with the cycle-limit parameters of the spec's
flagship scenario (cycle_life 4000, 365 cycles/year, 15 calendar years) and
inert financing/fade so the arithmetic stays small. -/
def exInputsS : LCOSInputs :=
  { capex_per_kwh := 1, system_size_kwh := 1, fixed_om_per_kwh_year := 0,
    variable_om_per_cycle := 0, round_trip_efficiency := 1, cycles_per_year := 365,
    cycle_life := 4000, calendar_life_years := 15, depth_of_discharge := 1,
    capacity_fade_per_year := 0, efficiency_fade_per_cycle := 0, financing := finZero }

/-- A concrete LCOS input whose effective lifetime is the fractional
3 / 2 = 1.5 years, so flooring it is observable. -/
def exInputsM : LCOSInputs :=
  { capex_per_kwh := 1, system_size_kwh := 1, fixed_om_per_kwh_year := 0,
    variable_om_per_cycle := 0, round_trip_efficiency := 1, cycles_per_year := 2,
    cycle_life := 3, calendar_life_years := 2, depth_of_discharge := 1,
    capacity_fade_per_year := 0, efficiency_fade_per_cycle := 0, financing := finZero }

/-- A concrete LCOS input with NEGATIVE cycles_per_year (-2) and cycle_life 3:
the cycle-limited years are -1.5, the code truncates `int(-1.5) = -1` while
`floor(-1.5) = -2`, and with a nonzero discount rate (edr = 1) the two
discount factors differ. -/
def exInputsNegCpy : LCOSInputs :=
  { capex_per_kwh := 1, system_size_kwh := 1, fixed_om_per_kwh_year := 0,
    variable_om_per_cycle := 0, round_trip_efficiency := 1, cycles_per_year := -2,
    cycle_life := 3, calendar_life_years := 15, depth_of_discharge := 1,
    capacity_fade_per_year := 0, efficiency_fade_per_cycle := 0,
    financing := { discount_rate := 1, inflation_rate := 0, tax_rate := 0,
                   debt_fraction := 0, debt_interest_rate := 0, federal_itc := 0,
                   state_rebate := 0, depreciation_schedule := [] } }

/-- A default LCOE input with a negative lifetime. -/
def exInputsNegLife : LCOEInputs := { system_lifetime_years := -1 }

/-- A default LCOE input with a zero lifetime. -/
def exInputsZeroLife : LCOEInputs := { system_lifetime_years := 0 }

/-- A default LCOE input with zero system size. -/
def exInputsZeroSize : LCOEInputs := { system_size_kw := 0 }

/-! Helper lemmas about the Python-semantics primitives. -/

lemma pydiv_of_ne_zero {a b : ℚ} (hb : b ≠ 0) : pydiv a b = some (a / b) := by
  simp [pydiv, hb]

lemma pydiv_eq_some_iff {a b c : ℚ} : pydiv a b = some c ↔ b ≠ 0 ∧ c = a / b := by
  unfold pydiv
  split
  · simp_all
  · simp_all [eq_comm]

lemma pypow_of_nonneg {x : ℚ} {n : ℤ} (h : 0 ≤ n) : pypow x n = some (x ^ n.toNat) := by
  simp [pypow, h]

/-- Whenever the Python power succeeds its value is the integer zpow. -/
lemma pypow_eq_some {x : ℚ} {n : ℤ} {d : ℚ} (h : pypow x n = some d) : d = x ^ n := by
  unfold pypow at h
  by_cases hn : 0 ≤ n
  · rw [if_pos hn, Option.some.injEq] at h
    subst h
    rw [← zpow_natCast, Int.toNat_of_nonneg hn]
  · rw [if_neg hn] at h
    by_cases hx : x = 0
    · rw [if_pos hx] at h
      exact absurd h (by simp)
    · rw [if_neg hx, Option.some.injEq] at h
      subst h
      rw [← zpow_natCast, Int.toNat_of_nonneg (by omega : (0:ℤ) ≤ -n), zpow_neg, inv_inv]

lemma pyint_of_nonneg {q : ℚ} (h : 0 ≤ q) : pyint q = ⌊q⌋ := by
  simp [pyint, not_lt.mpr h]

/-- An NPV series over a non-positive number of years is the empty sum. -/
lemma LCOECalculator.calculate_npv_series_of_nonpos {a d infl : ℚ} {years : ℤ}
    (h : years ≤ 0) : LCOECalculator.calculate_npv_series a years d infl = some 0 := by
  unfold LCOECalculator.calculate_npv_series
  rw [Int.toNat_of_nonpos h]
  rfl

/-- Lifetime energy over a non-positive lifetime is the empty sum. -/
lemma LCOECalculator.calculate_lifetime_energy_of_nonpos {i : LCOEInputs} {ae : ℚ}
    (h : i.system_lifetime_years ≤ 0) :
    LCOECalculator.calculate_lifetime_energy i ae = some 0 := by
  unfold LCOECalculator.calculate_lifetime_energy
  rw [Int.toNat_of_nonpos h]
  rfl

/-- With a non-positive lifetime every cost loop is empty, the zero-division
guard fires, and `calculate` returns the all-zero levelized result (provided
the one unguarded division, by `system_size_kw * 8.76`, is defined). -/
lemma LCOECalculator.calculate_of_nonpos_lifetime (i : LCOEInputs)
    (hl : i.system_lifetime_years ≤ 0) (hs : i.system_size_kw ≠ 0) :
    LCOECalculator.calculate i = some
      { lcoe_usd_per_mwh := 0, lcoe_usd_per_kwh := 0, capex_component := 0,
        opex_component := 0, fuel_component := 0, financing_component := 0,
        total_capex := LCOECalculator.calculate_total_capex i, total_opex_npv := 0,
        total_energy_mwh := 0,
        capacity_factor_actual :=
          LCOECalculator.calculate_annual_energy i / (i.system_size_kw * 8.76) } := by
  have h1 : LCOECalculator.calculate_lifetime_energy i
      (LCOECalculator.calculate_annual_energy i) = some 0 :=
    calculate_lifetime_energy_of_nonpos hl
  have h2 : LCOECalculator.calculate_opex_npv i = some 0 := by
    unfold LCOECalculator.calculate_opex_npv
    exact calculate_npv_series_of_nonpos hl
  have h3 : LCOECalculator.calculate_fuel_npv i
      (LCOECalculator.calculate_annual_energy i) = some 0 := by
    unfold LCOECalculator.calculate_fuel_npv
    split
    · rfl
    · exact calculate_npv_series_of_nonpos hl
  have h4 : LCOECalculator.calculate_financing_cost i
      (LCOECalculator.calculate_total_capex i) = some 0 := by
    unfold LCOECalculator.calculate_financing_cost
    exact calculate_npv_series_of_nonpos hl
  have h5 : pydiv (LCOECalculator.calculate_annual_energy i) (i.system_size_kw * 8.76) =
      some (LCOECalculator.calculate_annual_energy i / (i.system_size_kw * 8.76)) :=
    pydiv_of_ne_zero (mul_ne_zero hs (by norm_num))
  simp [LCOECalculator.calculate, h1, h2, h3, h4, h5, lt_irrefl]

/-- C2 (counterexample): at the concrete input with `system_lifetime_years
= -1`, `LCOECalculator.calculate` returns a result (the negative range is an
empty loop), contradicting the claim that it fails with a ComputationError
rather than returning a result; no ComputationError exists in the code. -/
theorem c2_counterexample :
    exInputsNegLife.system_lifetime_years < 0 ∧
    (LCOECalculator.calculate exInputsNegLife).isSome = true := by
  exact ⟨by decide, by decide!⟩

/-- C2 (amended): `calculate` raises nothing for a negative lifetime: for
every `LCOEInputs` with `system_lifetime_years < 0` (and `system_size_kw ≠ 0`
so the one unguarded reporting division is defined) it returns a result with
zero lifetime energy and zero LCOE, because `range` of a negative int is
empty; the claimed ComputationError does not exist in the code. -/
theorem c2_negative_lifetime_returns_zero (i : LCOEInputs)
    (hl : i.system_lifetime_years < 0) (hs : i.system_size_kw ≠ 0) :
    (LCOECalculator.calculate i).isSome = true ∧
    ((LCOECalculator.calculate i).getD LCOEResult.zero).lcoe_usd_per_mwh = 0 ∧
    ((LCOECalculator.calculate i).getD LCOEResult.zero).lcoe_usd_per_kwh = 0 ∧
    ((LCOECalculator.calculate i).getD LCOEResult.zero).total_energy_mwh = 0 := by
  rw [LCOECalculator.calculate_of_nonpos_lifetime i hl.le hs]
  simp [Option.getD]

/-- C2 (witness): the amended theorem applied at the concrete negative
lifetime input. -/
theorem c2_witness :
    exInputsNegLife.system_lifetime_years < 0 ∧
    exInputsNegLife.system_size_kw ≠ 0 ∧
    ((LCOECalculator.calculate exInputsNegLife).isSome = true ∧
     ((LCOECalculator.calculate exInputsNegLife).getD LCOEResult.zero).lcoe_usd_per_mwh = 0 ∧
     ((LCOECalculator.calculate exInputsNegLife).getD LCOEResult.zero).lcoe_usd_per_kwh = 0 ∧
     ((LCOECalculator.calculate exInputsNegLife).getD LCOEResult.zero).total_energy_mwh = 0) :=
  ⟨by decide, by decide!,
   c2_negative_lifetime_returns_zero exInputsNegLife (by decide) (by decide!)⟩

/-- C3: for every valid `LCOEInputs` (`system_size_kw > 0`) with
`system_lifetime_years = 0`, `calculate` succeeds and returns zero LCOE (per
MWh and per kWh) and four zero cost components: the division by the zero
lifetime energy is guarded. -/
theorem c3_zero_lifetime_all_zero (i : LCOEInputs)
    (hl : i.system_lifetime_years = 0) (hs : 0 < i.system_size_kw) :
    (LCOECalculator.calculate i).isSome = true ∧
    ((LCOECalculator.calculate i).getD LCOEResult.zero).lcoe_usd_per_mwh = 0 ∧
    ((LCOECalculator.calculate i).getD LCOEResult.zero).lcoe_usd_per_kwh = 0 ∧
    ((LCOECalculator.calculate i).getD LCOEResult.zero).capex_component = 0 ∧
    ((LCOECalculator.calculate i).getD LCOEResult.zero).opex_component = 0 ∧
    ((LCOECalculator.calculate i).getD LCOEResult.zero).fuel_component = 0 ∧
    ((LCOECalculator.calculate i).getD LCOEResult.zero).financing_component = 0 := by
  rw [LCOECalculator.calculate_of_nonpos_lifetime i hl.le hs.ne']
  simp [Option.getD]

/-- C3 (witness): the theorem applied at the concrete zero-lifetime input. -/
theorem c3_witness :
    exInputsZeroLife.system_lifetime_years = 0 ∧
    0 < exInputsZeroLife.system_size_kw ∧
    ((LCOECalculator.calculate exInputsZeroLife).isSome = true ∧
     ((LCOECalculator.calculate exInputsZeroLife).getD LCOEResult.zero).lcoe_usd_per_mwh = 0 ∧
     ((LCOECalculator.calculate exInputsZeroLife).getD LCOEResult.zero).lcoe_usd_per_kwh = 0 ∧
     ((LCOECalculator.calculate exInputsZeroLife).getD LCOEResult.zero).capex_component = 0 ∧
     ((LCOECalculator.calculate exInputsZeroLife).getD LCOEResult.zero).opex_component = 0 ∧
     ((LCOECalculator.calculate exInputsZeroLife).getD LCOEResult.zero).fuel_component = 0 ∧
     ((LCOECalculator.calculate exInputsZeroLife).getD LCOEResult.zero).financing_component = 0) :=
  ⟨by decide, by decide!,
   c3_zero_lifetime_all_zero exInputsZeroLife (by decide) (by decide!)⟩

/-- C10: for every `LCOEInputs` with `system_size_kw = 0`, the
`capacity_factor_actual` division `annual_energy / (system_size_kw * 8.76)`
raises (it has no zero guard, unlike the lifetime-energy divisions), and
`calculate` raises instead of returning a result. -/
theorem c10_zero_size_raises (i : LCOEInputs) (hs : i.system_size_kw = 0) :
    pydiv (LCOECalculator.calculate_annual_energy i) (i.system_size_kw * 8.76) = none ∧
    LCOECalculator.calculate i = none := by
  have hnone : pydiv (LCOECalculator.calculate_annual_energy i)
      (i.system_size_kw * 8.76) = none := by
    simp [pydiv, hs]
  refine ⟨hnone, ?_⟩
  cases h1 : LCOECalculator.calculate_lifetime_energy i
      (LCOECalculator.calculate_annual_energy i) <;>
    cases h2 : LCOECalculator.calculate_opex_npv i <;>
      cases h3 : LCOECalculator.calculate_fuel_npv i
          (LCOECalculator.calculate_annual_energy i) <;>
        cases h4 : LCOECalculator.calculate_financing_cost i
            (LCOECalculator.calculate_total_capex i) <;>
          simp [LCOECalculator.calculate, h1, h2, h3, h4, hnone]

/-- C10 (witness): the theorem applied at the concrete zero-size input. -/
theorem c10_witness :
    exInputsZeroSize.system_size_kw = 0 ∧
    (pydiv (LCOECalculator.calculate_annual_energy exInputsZeroSize)
        (exInputsZeroSize.system_size_kw * 8.76) = none ∧
     LCOECalculator.calculate exInputsZeroSize = none) :=
  ⟨by decide!, c10_zero_size_raises exInputsZeroSize (by decide!)⟩

/-- C1: whenever `calculate` succeeds, the four component-breakdown fields sum
exactly (in rational arithmetic) to the total levelized cost per MWh, for both
LCOE and LCOS; in the degenerate case of non-positive lifetime discounted
energy/throughput all five quantities are 0. -/
theorem c1_components_sum_to_total :
    (∀ (i : LCOEInputs) (r : LCOEResult), LCOECalculator.calculate i = some r →
      (r.capex_component + r.opex_component + r.fuel_component + r.financing_component
          = r.lcoe_usd_per_mwh ∧
       (r.total_energy_mwh ≤ 0 →
          r.lcoe_usd_per_mwh = 0 ∧ r.capex_component = 0 ∧ r.opex_component = 0 ∧
          r.fuel_component = 0 ∧ r.financing_component = 0))) ∧
    (∀ (i : LCOSInputs) (r : LCOSResult), LCOSCalculator.calculate i = some r →
      (r.capex_component + r.opex_component + r.replacement_component + r.financing_component
          = r.lcos_usd_per_mwh ∧
       (r.total_throughput_mwh ≤ 0 →
          r.lcos_usd_per_mwh = 0 ∧ r.capex_component = 0 ∧ r.opex_component = 0 ∧
          r.replacement_component = 0 ∧ r.financing_component = 0))) := by
  constructor
  · intro i r h
    simp only [LCOECalculator.calculate, bind, Option.bind_eq_some, Option.pure_def,
      Option.some.injEq] at h
    obtain ⟨le, h1, op, h2, fu, h3, fin, h4, cfa, h5, hr⟩ := h
    subst hr
    by_cases hE : (0:ℚ) < le
    · exact ⟨by simp [hE, div_add_div_same], fun h' => absurd hE (not_lt.mpr h')⟩
    · exact ⟨by simp [hE], fun _ => by simp [hE]⟩
  · intro i r h
    simp only [LCOSCalculator.calculate, bind, Option.bind_eq_some, Option.pure_def,
      Option.some.injEq] at h
    obtain ⟨thr, h1, op, h2, rep, h3, fin, h4, ec, h5, eol, h6, ae, h7, hr⟩ := h
    subst hr
    by_cases hT : (0:ℚ) < thr
    · exact ⟨by simp [hT, div_add_div_same], fun h' => absurd hT (not_lt.mpr h')⟩
    · exact ⟨by simp [hT], fun _ => by simp [hT]⟩

/-- C1 (witness): the sum identity instantiated at concrete LCOE and LCOS
inputs on which `calculate` succeeds. -/
theorem c1_witness :
    LCOECalculator.calculate exInputsA
        = some ((LCOECalculator.calculate exInputsA).getD LCOEResult.zero) ∧
    ((LCOECalculator.calculate exInputsA).getD LCOEResult.zero).capex_component +
      ((LCOECalculator.calculate exInputsA).getD LCOEResult.zero).opex_component +
      ((LCOECalculator.calculate exInputsA).getD LCOEResult.zero).fuel_component +
      ((LCOECalculator.calculate exInputsA).getD LCOEResult.zero).financing_component
        = ((LCOECalculator.calculate exInputsA).getD LCOEResult.zero).lcoe_usd_per_mwh ∧
    LCOSCalculator.calculate exInputsS
        = some ((LCOSCalculator.calculate exInputsS).getD LCOSResult.zero) ∧
    ((LCOSCalculator.calculate exInputsS).getD LCOSResult.zero).capex_component +
      ((LCOSCalculator.calculate exInputsS).getD LCOSResult.zero).opex_component +
      ((LCOSCalculator.calculate exInputsS).getD LCOSResult.zero).replacement_component +
      ((LCOSCalculator.calculate exInputsS).getD LCOSResult.zero).financing_component
        = ((LCOSCalculator.calculate exInputsS).getD LCOSResult.zero).lcos_usd_per_mwh :=
  ⟨by decide!,
   (c1_components_sum_to_total.1 exInputsA _ (by decide!)).1,
   by decide!,
   (c1_components_sum_to_total.2 exInputsS _ (by decide!)).1⟩

/-- The `actual_lifetime` intermediate of the LCOS calculator,
`min(cycle_life / cycles_per_year, calendar_life_years)`, written with total
rational division; it coincides with the source expression whenever
`cycles_per_year ≠ 0` (when it is 0 the source raises instead). -/
def effective_lifetime (i : LCOSInputs) : ℚ :=
  min ((i.cycle_life : ℚ) / i.cycles_per_year) (i.calendar_life_years : ℚ)

/-- C4 (counterexample): at a concrete input whose effective lifetime is the
fractional 1.5 years, the reported `effective_cycles` is 3 (the code uses the
unfloored lifetime), not `floor(effective_lifetime) × cycles_per_year = 2` as
the claim states. -/
theorem c4_counterexample :
    (LCOSCalculator.calculate exInputsM).isSome = true ∧
    ((LCOSCalculator.calculate exInputsM).getD LCOSResult.zero).effective_cycles
      ≠ (⌊effective_lifetime exInputsM⌋ : ℚ) * exInputsM.cycles_per_year := by
  exact ⟨by decide!, by decide!⟩

/-- C4 (amended): the reported performance metrics are computed at the
UNFLOORED effective lifetime (only the throughput loop floors it):
`effective_cycles = effective_lifetime × cycles_per_year`,
`end_of_life_capacity = max(0.5, 1 − effective_lifetime × capacity_fade_per_year)`,
and `average_efficiency` is the mean of the year-0 round-trip efficiency and
the 0.7-floored efficiency after `effective_lifetime × cycles_per_year`
cycles. -/
theorem c4_metrics_use_unfloored_lifetime (i : LCOSInputs) (r : LCOSResult)
    (h : LCOSCalculator.calculate i = some r) :
    i.cycles_per_year ≠ 0 ∧
    r.effective_cycles = effective_lifetime i * i.cycles_per_year ∧
    r.end_of_life_capacity
      = max 0.5 (1 - effective_lifetime i * i.capacity_fade_per_year) ∧
    r.average_efficiency
      = (i.round_trip_efficiency +
          max 0.7 (i.round_trip_efficiency -
            effective_lifetime i * i.cycles_per_year * i.efficiency_fade_per_cycle)) / 2 := by
  simp only [LCOSCalculator.calculate, bind, Option.bind_eq_some, Option.pure_def,
    Option.some.injEq] at h
  obtain ⟨thr, h1, op, h2, rep, h3, fin, h4, ec, h5, eol, h6, ae, h7, hr⟩ := h
  subst hr
  simp only [LCOSCalculator.calculate_effective_cycles, bind, Option.bind_eq_some,
    Option.pure_def, Option.some.injEq] at h5
  obtain ⟨cyc, hcyc, hec⟩ := h5
  obtain ⟨hcpy, hcycv⟩ := pydiv_eq_some_iff.mp hcyc
  simp only [LCOSCalculator.calculate_end_of_life_capacity, bind, Option.bind_eq_some,
    Option.pure_def, Option.some.injEq] at h6
  obtain ⟨cyc', hcyc', heol⟩ := h6
  obtain ⟨_, hcycv'⟩ := pydiv_eq_some_iff.mp hcyc'
  simp only [LCOSCalculator.calculate_average_efficiency, bind, Option.bind_eq_some,
    Option.pure_def, Option.some.injEq] at h7
  obtain ⟨cyc'', hcyc'', hae⟩ := h7
  obtain ⟨_, hcycv''⟩ := pydiv_eq_some_iff.mp hcyc''
  subst hcycv hcycv' hcycv''
  exact ⟨hcpy, by simp [← hec, effective_lifetime], by simp [← heol, effective_lifetime],
    by simp [← hae, effective_lifetime]⟩

/-- C4 (witness): the amended metric formulas instantiated at the concrete
fractional-lifetime input. -/
theorem c4_witness :
    LCOSCalculator.calculate exInputsM
        = some ((LCOSCalculator.calculate exInputsM).getD LCOSResult.zero) ∧
    (exInputsM.cycles_per_year ≠ 0 ∧
     ((LCOSCalculator.calculate exInputsM).getD LCOSResult.zero).effective_cycles
       = effective_lifetime exInputsM * exInputsM.cycles_per_year ∧
     ((LCOSCalculator.calculate exInputsM).getD LCOSResult.zero).end_of_life_capacity
       = max 0.5 (1 - effective_lifetime exInputsM * exInputsM.capacity_fade_per_year) ∧
     ((LCOSCalculator.calculate exInputsM).getD LCOSResult.zero).average_efficiency
       = (exInputsM.round_trip_efficiency +
           max 0.7 (exInputsM.round_trip_efficiency -
             effective_lifetime exInputsM * exInputsM.cycles_per_year *
               exInputsM.efficiency_fade_per_cycle)) / 2) :=
  ⟨by decide!, c4_metrics_use_unfloored_lifetime exInputsM _ (by decide!)⟩

/-- C5 (counterexample): at `cycle_life = 3, cycles_per_year = -2,
calendar_life_years = 15` with effective discount rate 1, `calculate` succeeds
and the code discounts the replacement at `int(-1.5) = -1`
(NPV `0.7 / 2⁻¹ = 1.4`), while the claim's `floor(-1.5) = -2` formula gives
`0.7 / 2⁻² = 2.8`: the universally quantified claim is false. -/
theorem c5_counterexample :
    (exInputsNegCpy.cycle_life : ℚ) / exInputsNegCpy.cycles_per_year
        < (exInputsNegCpy.calendar_life_years : ℚ) ∧
    (LCOSCalculator.calculate exInputsNegCpy).isSome = true ∧
    ((LCOSCalculator.calculate exInputsNegCpy).getD LCOSResult.zero).replacement_cost_npv
      ≠ exInputsNegCpy.capex_per_kwh * exInputsNegCpy.system_size_kwh * 0.7 /
          (1 + exInputsNegCpy.financing.effective_discount_rate)
            ^ ⌊(exInputsNegCpy.cycle_life : ℚ) / exInputsNegCpy.cycles_per_year⌋ := by
  refine ⟨by decide!, by decide!, by decide!⟩

/-- C5 (amended): for every `LCOSInputs` on which `calculate` succeeds: if
`cycle_life / cycles_per_year < calendar_life_years` then the replacement NPV
is `capex_per_kwh × system_size_kwh × 0.7` discounted by
`(1 + effective_discount_rate) ^ int(cycle_life / cycles_per_year)` — exactly
one replacement event, with `int()` the toward-zero truncation of the source
(equal to the claim's `floor` whenever the cycle-limited years are
nonnegative) — otherwise the replacement NPV is 0; and at
`cycle_life = 4000, cycles_per_year = 365, calendar_life_years = 15` with
positive capex and throughput, the replacement component is positive. -/
theorem c5_replacement_truncated (i : LCOSInputs) (r : LCOSResult)
    (h : LCOSCalculator.calculate i = some r) :
    ((i.cycle_life : ℚ) / i.cycles_per_year < (i.calendar_life_years : ℚ) →
       r.replacement_cost_npv
         = i.capex_per_kwh * i.system_size_kwh * 0.7 /
             (1 + i.financing.effective_discount_rate)
               ^ pyint ((i.cycle_life : ℚ) / i.cycles_per_year)) ∧
    ((i.calendar_life_years : ℚ) ≤ (i.cycle_life : ℚ) / i.cycles_per_year →
       r.replacement_cost_npv = 0) ∧
    (i.cycle_life = 4000 → i.cycles_per_year = 365 → i.calendar_life_years = 15 →
       0 < i.capex_per_kwh → 0 < i.system_size_kwh → 0 < r.total_throughput_mwh →
       0 < r.replacement_component) := by
  simp only [LCOSCalculator.calculate, bind, Option.bind_eq_some, Option.pure_def,
    Option.some.injEq] at h
  obtain ⟨thr, h1, op, h2, rep, h3, fin, h4, ec, h5, eol, h6, ae, h7, hr⟩ := h
  subst hr
  simp only [LCOSCalculator.calculate_replacement_cost, bind, Option.bind_eq_some] at h3
  obtain ⟨cyc, hcyc, hbr⟩ := h3
  obtain ⟨hcpy0, hcycv⟩ := pydiv_eq_some_iff.mp hcyc
  subst hcycv
  by_cases hlt : (i.cycle_life : ℚ) / i.cycles_per_year < (i.calendar_life_years : ℚ)
  · rw [if_pos hlt] at hbr
    simp only [bind, Option.bind_eq_some] at hbr
    obtain ⟨denom, hpow, hdiv⟩ := hbr
    have hdval := pypow_eq_some hpow
    obtain ⟨hden0, hrep⟩ := pydiv_eq_some_iff.mp hdiv
    subst hrep
    subst hdval
    refine ⟨fun _ => by simp, fun hge => absurd hlt (not_lt.mpr hge), ?_⟩
    intro h4000 h365 h15 hcapex hsize hthr
    have hthr' : (0:ℚ) < thr := by simpa using hthr
    have hpy : pyint ((i.cycle_life : ℚ) / i.cycles_per_year) = 10 := by
      rw [h4000, h365]
      unfold pyint
      rw [if_neg (by norm_num), Int.floor_eq_iff]
      constructor <;> norm_num
    have hzq : (1 + i.financing.effective_discount_rate)
        ^ pyint ((i.cycle_life : ℚ) / i.cycles_per_year)
        = ((1 + i.financing.effective_discount_rate) ^ (5:ℕ)) ^ 2 := by
      rw [hpy, show (10:ℤ) = ((10:ℕ):ℤ) by norm_num, zpow_natCast]
      ring
    have hdenpos : (0:ℚ) < (1 + i.financing.effective_discount_rate)
        ^ pyint ((i.cycle_life : ℚ) / i.cycles_per_year) := by
      rw [hzq] at hden0 ⊢
      exact lt_of_le_of_ne (sq_nonneg _) (Ne.symm hden0)
    have hcost : (0:ℚ) < i.capex_per_kwh * i.system_size_kwh * 0.7 := by
      have := mul_pos hcapex hsize
      nlinarith
    have hreppos : (0:ℚ) < i.capex_per_kwh * i.system_size_kwh * 0.7 /
        (1 + i.financing.effective_discount_rate)
          ^ pyint ((i.cycle_life : ℚ) / i.cycles_per_year) :=
      div_pos hcost hdenpos
    simp only [hthr', if_pos]
    exact div_pos hreppos hthr'
  · rw [if_neg hlt] at hbr
    rw [Option.pure_def, Option.some.injEq] at hbr
    subst hbr
    refine ⟨fun hlt' => absurd hlt' hlt, fun _ => by simp, ?_⟩
    intro h4000 h365 h15 _ _ _
    rw [h4000, h365, h15] at hlt
    exact absurd (by norm_num) hlt

/-- C5 (witness): the truncated replacement formula instantiated at the
concrete 4000-cycle, 365-cycles-per-year, 15-calendar-year input. -/
theorem c5_witness :
    LCOSCalculator.calculate exInputsS
        = some ((LCOSCalculator.calculate exInputsS).getD LCOSResult.zero) ∧
    ((LCOSCalculator.calculate exInputsS).getD LCOSResult.zero).replacement_cost_npv
      = exInputsS.capex_per_kwh * exInputsS.system_size_kwh * 0.7 /
          (1 + exInputsS.financing.effective_discount_rate)
            ^ pyint ((exInputsS.cycle_life : ℚ) / exInputsS.cycles_per_year) ∧
    0 < ((LCOSCalculator.calculate exInputsS).getD LCOSResult.zero).total_throughput_mwh ∧
    0 < ((LCOSCalculator.calculate exInputsS).getD LCOSResult.zero).replacement_component :=
  ⟨by decide!,
   (c5_replacement_truncated exInputsS
     ((LCOSCalculator.calculate exInputsS).getD LCOSResult.zero) (by decide!)).1 (by decide!),
   by decide!,
   (c5_replacement_truncated exInputsS
     ((LCOSCalculator.calculate exInputsS).getD LCOSResult.zero) (by decide!)).2.2
     (by decide) (by decide!) (by decide) (by decide!) (by decide!) (by decide!)⟩

/-- An exponential degradation model with rate 2 (> 1), allowed by the code
(rates are not validated). -/
def expModelBad : DegradationModel :=
  { annual_degradation_rate := 2, degradation_type := "exponential" }

/-- A linear degradation model with the typical 1 percent rate. -/
def linModel : DegradationModel :=
  { annual_degradation_rate := 0.01, degradation_type := "linear" }

/-- C6 (counterexample): for the exponential variant with
`annual_degradation_rate = 2 > 0`, `performance_factor` oscillates:
`(1-2)^1 = -1` at year 1 but `(1-2)^2 = 1` at year 2, so
`performance_factor(year+1) ≤ performance_factor(year)` fails at year 1. -/
theorem c6_counterexample :
    0 < expModelBad.annual_degradation_rate ∧
    expModelBad.performance_factor 1 = some (-1) ∧
    expModelBad.performance_factor 2 = some 1 ∧
    ¬ ((1:ℚ) ≤ -1) := by
  refine ⟨by decide!, by decide!, by decide!, by decide!⟩

/-- C6 (amended): `performance_factor` is antitone in the year for the linear
variant with any positive rate, and for the exponential variant with rate in
`(0, 1]` (for rates above 1 the exponential factor oscillates in sign). -/
theorem c6_degradation_monotone (m : DegradationModel) (y : ℕ) (a b : ℚ)
    (hm : (m.degradation_type = "linear" ∧ 0 < m.annual_degradation_rate) ∨
          (m.degradation_type = "exponential" ∧ 0 < m.annual_degradation_rate ∧
           m.annual_degradation_rate ≤ 1))
    (ha : m.performance_factor (y : ℤ) = some a)
    (hb : m.performance_factor ((y : ℤ) + 1) = some b) :
    b ≤ a := by
  rcases hm with ⟨hstr, hrate⟩ | ⟨hstr, hrate, hrate1⟩
  · unfold DegradationModel.performance_factor at ha hb
    rw [hstr, if_pos rfl, Option.some.injEq] at ha hb
    rw [← ha, ← hb]
    refine max_le_max le_rfl ?_
    have hy : ((y:ℤ):ℚ) = (y:ℚ) := by push_cast; ring
    have hy1 : (((y:ℤ) + 1 :ℤ):ℚ) = (y:ℚ) + 1 := by push_cast; ring
    rw [hy, hy1]
    have hmul : (y:ℚ) * m.annual_degradation_rate
        ≤ ((y:ℚ) + 1) * m.annual_degradation_rate := by nlinarith [hrate.le]
    linarith
  · unfold DegradationModel.performance_factor at ha hb
    rw [hstr, if_neg (by decide), if_pos rfl] at ha hb
    rw [pypow_of_nonneg (Int.natCast_nonneg y), Option.some.injEq,
      Int.toNat_natCast] at ha
    have hcast : ((y:ℤ) + 1) = ((y + 1 : ℕ) : ℤ) := by push_cast; ring
    rw [hcast, pypow_of_nonneg (Int.natCast_nonneg (y + 1)), Option.some.injEq,
      Int.toNat_natCast] at hb
    rw [← ha, ← hb, pow_succ]
    exact mul_le_of_le_one_right (pow_nonneg (by linarith) y) (by linarith)

/-- C6 (witness): the amended monotonicity applied to the linear 1 percent
model at year 0. -/
theorem c6_witness :
    linModel.performance_factor 0 = some 1 ∧
    linModel.performance_factor 1 = some (99/100) ∧
    (99/100 : ℚ) ≤ 1 :=
  ⟨by decide!, by decide!,
   c6_degradation_monotone linModel 0 1 (99/100) (Or.inl ⟨rfl, by decide!⟩)
     (by decide!) (by decide!)⟩

/-- A year at or past every configured trigger year: any such year forces the
step loop to read `step_rates` at every index of `step_years`. -/
def maxTrigger (l : List ℤ) : ℤ := l.foldl max 0

lemma foldl_max_init_le (l : List ℤ) : ∀ a : ℤ, a ≤ l.foldl max a := by
  induction l with
  | nil => intro a; exact le_refl a
  | cons b t ih => intro a; exact le_trans (le_max_left a b) (ih (max a b))

lemma le_foldl_max_of_mem {x : ℤ} {l : List ℤ} (h : x ∈ l) : ∀ a : ℤ, x ≤ l.foldl max a := by
  induction l with
  | nil => cases h
  | cons b t ih =>
    intro a
    rcases List.mem_cons.mp h with rfl | hmem
    · exact le_trans (le_max_right a x) (foldl_max_init_le t _)
    · exact ih hmem _

/-- The step loop is total as long as the remaining indices stay inside
`step_rates`. -/
lemma stepLoop_isSome (year : ℤ) (rates : List ℚ) :
    ∀ (ys : List ℤ) (i : ℕ) (acc : ℚ), i + ys.length ≤ rates.length →
      (stepLoop year rates ys i acc).isSome = true := by
  intro ys
  induction ys with
  | nil => intro i acc _; rfl
  | cons sy rest ih =>
    intro i acc h
    unfold stepLoop
    split
    · cases hget : rates.get? i with
      | none =>
        exfalso
        have hlen := List.get?_eq_none.mp hget
        simp only [List.length_cons] at h
        omega
      | some r =>
        exact ih (i + 1) _ (by simp only [List.length_cons] at h; omega)
    · exact ih (i + 1) acc (by simp only [List.length_cons] at h; omega)

/-- If the index has passed the end of `step_rates` while trigger years remain,
and the year is at or past every remaining trigger, the step loop raises. -/
lemma stepLoop_none (year : ℤ) (rates : List ℚ) :
    ∀ (ys : List ℤ) (i : ℕ) (acc : ℚ), i ≤ rates.length →
      rates.length < i + ys.length → (∀ sy ∈ ys, sy ≤ year) →
      stepLoop year rates ys i acc = none := by
  intro ys
  induction ys with
  | nil =>
    intro i acc h1 h2 _
    simp only [List.length_nil, Nat.add_zero] at h2
    omega
  | cons sy rest ih =>
    intro i acc h1 h2 hall
    unfold stepLoop
    rw [if_pos (hall sy (List.mem_cons_self sy rest))]
    rcases lt_or_eq_of_le h1 with hlt | heq
    · cases hget : rates.get? i with
      | none => rfl
      | some r =>
        exact ih (i + 1) _ hlt (by simp only [List.length_cons] at h2; omega)
          (fun s hs => hall s (List.mem_cons_of_mem _ hs))
    · rw [List.get?_eq_none.mpr (le_of_eq heq.symm)]

/-- C9: the `"step"` variant of `performance_factor` is only partially
defined: whenever `step_rates` is shorter than `step_years` there is a year
(any year at or past every trigger) at which the loop indexes `step_rates`
out of range and raises `IndexError`; conversely
`len(step_rates) ≥ len(step_years)` makes it total. -/
theorem c9_step_partiality (m : DegradationModel) (hstep : m.degradation_type = "step") :
    (m.step_rates.length < m.step_years.length →
       m.performance_factor (maxTrigger m.step_years) = none) ∧
    (m.step_years.length ≤ m.step_rates.length →
       ∀ year : ℤ, (m.performance_factor year).isSome = true) := by
  constructor
  · intro hlen
    unfold DegradationModel.performance_factor
    rw [hstep, if_neg (by decide), if_neg (by decide), if_pos rfl]
    exact stepLoop_none _ _ m.step_years 0 1 (Nat.zero_le _) (by simpa using hlen)
      (fun sy hs => le_foldl_max_of_mem hs 0)
  · intro hlen year
    unfold DegradationModel.performance_factor
    rw [hstep, if_neg (by decide), if_neg (by decide), if_pos rfl]
    exact stepLoop_isSome _ _ m.step_years 0 1 (by simpa using hlen)

/-- A step model whose `step_rates` list is one entry short of `step_years`. -/
def stepModelBad : DegradationModel :=
  { degradation_type := "step", step_years := [1, 3], step_rates := [0.1] }

/-- A step model with a rate for every trigger year. -/
def stepModelGood : DegradationModel :=
  { degradation_type := "step", step_years := [1, 3], step_rates := [0.1, 0.2] }

/-- C9 (witness): the partiality theorem applied to concrete step models. -/
theorem c9_witness :
    stepModelBad.step_rates.length < stepModelBad.step_years.length ∧
    stepModelBad.performance_factor (maxTrigger stepModelBad.step_years) = none ∧
    stepModelGood.step_years.length ≤ stepModelGood.step_rates.length ∧
    (stepModelGood.performance_factor 5).isSome = true :=
  ⟨by decide, (c9_step_partiality stepModelBad rfl).1 (by decide),
   by decide, (c9_step_partiality stepModelGood rfl).2 (by decide) 5⟩

/-- For every float-typed LCOE parameter, substituting the unchanged base
value reproduces the base engine call (structure eta). -/
lemma calculate_with_param_get (i : LCOEInputs) (p : LCOEParam)
    (hp : p ≠ LCOEParam.system_lifetime_years) :
    calculate_with_param i p (get_parameter i p) = LCOECalculator.calculate i := by
  cases p
  · rfl
  · rfl
  · exact absurd rfl hp
  · rfl
  · rfl

/-- For every LCOS parameter, substituting the unchanged base value reproduces
the base engine call (for `cycle_life`, `calculate_clv` at the cast value is
definitionally the original calculator). -/
lemma calculate_with_param_lcos_get (i : LCOSInputs) (p : LCOSParam) :
    calculate_with_param_lcos i p (get_parameter_lcos i p) = LCOSCalculator.calculate i := by
  cases p <;> rfl

/-- C7 (counterexample): with `variation_percent = 0` the perturbed low and
high values are identical, yet at a concrete input with nonzero base value and
nonzero base LCOE the elasticity expression divides by zero, the exception is
caught, and the per-parameter record is NOT produced, contradicting the
claim. -/
theorem c7_counterexample :
    get_parameter exInputsA .capex_per_kw * (1 - 0)
      = get_parameter exInputsA .capex_per_kw * (1 + 0) ∧
    analyze_one_parameter exInputsA .capex_per_kw 0 = none := by
  exact ⟨by ring, by decide!⟩

/-- C7 (amended): in both analyzers, when the perturbed low and high values
are identical because the base parameter value is 0 — for any float-typed
parameter (every LCOS parameter, and every LCOE parameter except the
int-typed `system_lifetime_years`) — the guards fire: the record is produced
with `sensitivity = 0` and `elasticity = 0`.  For `system_lifetime_years` the
variation step stores a float into the int slot and `range(float)` raises
`TypeError`, so that parameter's record is never produced, base 0 included.
When low and high are identical because `variation_percent = 0` while the
base value and base output are nonzero, the elasticity expression
`((Δout)/base_out) / ((Δin)/base_in)` divides by zero (`Δin = 0`), the
exception is caught, and the record is skipped. -/
theorem c7_identical_bounds :
    (∀ (i : LCOEInputs) (p : LCOEParam) (v : ℚ) (r : LCOEResult),
      LCOECalculator.calculate i = some r →
      ((p ≠ LCOEParam.system_lifetime_years → get_parameter i p = 0 →
         (analyze_one_parameter i p v).isSome = true ∧
         ((analyze_one_parameter i p v).getD SensitivityResult.zero).sensitivity = 0 ∧
         ((analyze_one_parameter i p v).getD SensitivityResult.zero).elasticity = 0) ∧
       analyze_one_parameter i LCOEParam.system_lifetime_years v = none ∧
       (get_parameter i p ≠ 0 → r.lcoe_usd_per_kwh ≠ 0 →
         analyze_one_parameter i p 0 = none))) ∧
    (∀ (i : LCOSInputs) (p : LCOSParam) (v : ℚ) (r : LCOSResult),
      LCOSCalculator.calculate i = some r →
      ((get_parameter_lcos i p = 0 →
         (analyze_one_parameter_lcos i p v).isSome = true ∧
         ((analyze_one_parameter_lcos i p v).getD SensitivityResult.zero).sensitivity = 0 ∧
         ((analyze_one_parameter_lcos i p v).getD SensitivityResult.zero).elasticity = 0) ∧
       (get_parameter_lcos i p ≠ 0 → r.lcos_usd_per_kwh ≠ 0 →
         analyze_one_parameter_lcos i p 0 = none))) := by
  constructor
  · intro i p v r h
    refine ⟨?_, ?_, ?_⟩
    · intro hp h0
      have hg := calculate_with_param_get i p hp
      rw [h0] at hg
      simp [analyze_one_parameter, h, h0, zero_mul, hg]
    · simp [analyze_one_parameter, h, calculate_with_param]
    · intro hne hlc
      by_cases hp : p = LCOEParam.system_lifetime_years
      · subst hp
        simp [analyze_one_parameter, h, calculate_with_param]
      · have hg := calculate_with_param_get i p hp
        have h1v : get_parameter i p * (1 - 0) = get_parameter i p := by ring
        have h2v : get_parameter i p * (1 + 0) = get_parameter i p := by ring
        simp [analyze_one_parameter, h, h1v, h2v, hg, hne, hlc, sub_self, pydiv]
  · intro i p v r h
    refine ⟨?_, ?_⟩
    · intro h0
      have hg := calculate_with_param_lcos_get i p
      rw [h0] at hg
      simp [analyze_one_parameter_lcos, h, h0, zero_mul, hg]
    · intro hne hlc
      have hg := calculate_with_param_lcos_get i p
      have h1v : get_parameter_lcos i p * (1 - 0) = get_parameter_lcos i p := by ring
      have h2v : get_parameter_lcos i p * (1 + 0) = get_parameter_lcos i p := by ring
      simp [analyze_one_parameter_lcos, h, h1v, h2v, hg, hne, hlc, sub_self, pydiv]

/-- C7 (witness): the amended claim applied at concrete inputs for both
analyzers — base value 0 keeps the record with zero sensitivity/elasticity
(`fixed_om_per_kw_year` for LCOE, `capacity_fade_per_year` for LCOS), the
`system_lifetime_years` record is always dropped, and `variation_percent = 0`
with nonzero base value and output drops the record in both analyzers. -/
theorem c7_witness :
    get_parameter exInputsA .fixed_om_per_kw_year = 0 ∧
    ((analyze_one_parameter exInputsA .fixed_om_per_kw_year (1/5)).isSome = true ∧
     ((analyze_one_parameter exInputsA .fixed_om_per_kw_year
         (1/5)).getD SensitivityResult.zero).sensitivity = 0 ∧
     ((analyze_one_parameter exInputsA .fixed_om_per_kw_year
         (1/5)).getD SensitivityResult.zero).elasticity = 0) ∧
    analyze_one_parameter exInputsA .system_lifetime_years (1/5) = none ∧
    get_parameter exInputsA .capex_per_kw ≠ 0 ∧
    ((LCOECalculator.calculate exInputsA).getD LCOEResult.zero).lcoe_usd_per_kwh ≠ 0 ∧
    analyze_one_parameter exInputsA .capex_per_kw 0 = none ∧
    get_parameter_lcos exInputsM .capacity_fade_per_year = 0 ∧
    ((analyze_one_parameter_lcos exInputsM .capacity_fade_per_year (1/5)).isSome = true ∧
     ((analyze_one_parameter_lcos exInputsM .capacity_fade_per_year
         (1/5)).getD SensitivityResult.zero).sensitivity = 0 ∧
     ((analyze_one_parameter_lcos exInputsM .capacity_fade_per_year
         (1/5)).getD SensitivityResult.zero).elasticity = 0) ∧
    get_parameter_lcos exInputsM .capex_per_kwh ≠ 0 ∧
    ((LCOSCalculator.calculate exInputsM).getD LCOSResult.zero).lcos_usd_per_kwh ≠ 0 ∧
    analyze_one_parameter_lcos exInputsM .capex_per_kwh 0 = none :=
  ⟨by decide!,
   (c7_identical_bounds.1 exInputsA .fixed_om_per_kw_year (1/5)
     ((LCOECalculator.calculate exInputsA).getD LCOEResult.zero) (by decide!)).1
       (by decide) (by decide!),
   (c7_identical_bounds.1 exInputsA .fixed_om_per_kw_year (1/5)
     ((LCOECalculator.calculate exInputsA).getD LCOEResult.zero) (by decide!)).2.1,
   by decide!, by decide!,
   (c7_identical_bounds.1 exInputsA .capex_per_kw 0
     ((LCOECalculator.calculate exInputsA).getD LCOEResult.zero) (by decide!)).2.2
       (by decide!) (by decide!),
   by decide!,
   (c7_identical_bounds.2 exInputsM .capacity_fade_per_year (1/5)
     ((LCOSCalculator.calculate exInputsM).getD LCOSResult.zero) (by decide!)).1 (by decide!),
   by decide!, by decide!,
   (c7_identical_bounds.2 exInputsM .capex_per_kwh 0
     ((LCOSCalculator.calculate exInputsM).getD LCOSResult.zero) (by decide!)).2
       (by decide!) (by decide!)⟩
